import Mathlib

/-!
Verification of `start_local.py`: a utility script that selects a free TCP
port, starts a threaded HTTP file server on loopback with no-cache headers,
opens a browser, and shuts down cleanly on interrupt.

The embedding models the operating system as an explicit environment value
(`OS`): which ports are busy, which ephemeral ports the OS hands out when
binding port 0, and the directory containing the script.  Python functions
become Lean functions over this environment; socket operations and process
effects are recorded in explicit event traces; code that can raise returns
`Except`.
-/

namespace StartLocal

/-- The operating-system environment a run of the script observes.
`inUse p = true` means a bind of a probe or server socket to the concrete
port `p` fails with an `OSError` (address in use, permission denied, ...).
`ephemeralProbe` is the port the OS assigns when the probe socket in
`find_free_port` binds port 0; `ephemeralServe` is the port assigned when
the HTTP server itself binds port 0.  `scriptDir` is the directory of the
script file (`os.path.dirname(os.path.abspath(__file__))`). -/
structure OS where
  inUse : Nat → Bool
  ephemeralProbe : Nat
  ephemeralServe : Nat
  scriptDir : String

/-- The two kinds of exception a `socket.bind` call in this program can
raise: `osError` is Python's `OSError` (caught by the `except OSError`
in `find_free_port`); `overflow` is the `OverflowError` CPython's
`getsockaddrarg` raises when the requested port is outside [0, 65535]
(`OverflowError` is not a subclass of `OSError`, so it is not caught). -/
inductive BindError where
  | overflow
  | osError
  deriving DecidableEq

/-- One socket operation performed by `find_free_port`'s probing.  Every
probe socket is wrapped in `contextlib.closing`, so a `sockClose` is
emitted even when the bind attempt raised. -/
inductive SockOp where
  | sockOpen
  | bindAttempt (addr : String) (port : Int) (success : Bool)
  | sockClose
  deriving DecidableEq

/-- Semantics of `s.bind(("127.0.0.1", p))` for a fresh probe socket:
ports outside [0, 65535] raise `OverflowError`; port 0 always succeeds
and the OS assigns `ephemeralProbe`; otherwise the bind succeeds exactly
when the port is not in use, returning the bound port. -/
def tryBind (os : OS) (p : Int) : Except BindError Nat :=
  if p < 0 ∨ 65535 < p then Except.error BindError.overflow
  else if p = 0 then Except.ok os.ephemeralProbe
  else if os.inUse p.toNat then Except.error BindError.osError
  else Except.ok p.toNat

/-- The socket events of one probe: open, attempt the bind, close. -/
def probeEvents (p : Int) (ok : Bool) : List SockOp :=
  [SockOp.sockOpen, SockOp.bindAttempt "127.0.0.1" p ok, SockOp.sockClose]

/-- The `for p in [preferred] + list(range(8001, 8011))` loop of
`find_free_port`, over the remaining candidate ports: on a successful
bind return `p`; on `OSError` continue with the next candidate; an
`OverflowError` is not caught and propagates; if the loop ends, return 0.
Also returns the trace of socket operations performed. -/
def scanT (os : OS) : List Int → List SockOp × Except BindError Nat
  | [] => ([], Except.ok 0)
  | p :: rest =>
    match tryBind os p with
    | Except.ok _ => (probeEvents p true, Except.ok p.toNat)
    | Except.error BindError.osError =>
      let r := scanT os rest
      (probeEvents p false ++ r.1, r.2)
    | Except.error BindError.overflow =>
      (probeEvents p false, Except.error BindError.overflow)

/-- `list(range(8001, 8011))`: the fixed fallback range 8001..8010. -/
def fallbackPorts : List Nat := List.range' 8001 10

/-- The candidate list `[preferred] + list(range(8001, 8011))`. -/
def candidates (preferred : Int) : List Int :=
  preferred :: fallbackPorts.map Int.ofNat

/-- `find_free_port(preferred)` together with its socket-operation trace.
If `preferred == 0`: bind an ephemeral probe socket to port 0 on loopback,
read back the OS-assigned port, close the probe, return that port.
Otherwise run the candidate scan. -/
def find_free_portT (os : OS) (preferred : Int) :
    List SockOp × Except BindError Nat :=
  if preferred = 0 then
    ([SockOp.sockOpen, SockOp.bindAttempt "127.0.0.1" 0 true, SockOp.sockClose],
      Except.ok os.ephemeralProbe)
  else scanT os (candidates preferred)

/-- The value returned (or exception raised) by `find_free_port`. -/
def find_free_port (os : OS) (preferred : Int) : Except BindError Nat :=
  (find_free_portT os preferred).2

/-- The first port of the fallback range 8001..8010 that is not in use,
or 0 when every port of the range is in use. -/
def firstFreeFallback (os : OS) : Nat :=
  match fallbackPorts.find? (fun q => !os.inUse q) with
  | some q => q
  | none => 0

/-- `http.server.ThreadingHTTPServer(("127.0.0.1", port), ...)`: binding
the server socket.  Port 0 succeeds with an OS-assigned port
(`ephemeralServe`); a busy port raises `OSError`, which `main` does not
catch (the fatal startup-failure class).  Returns the actually bound port
(`server.server_address[1]`). -/
def serveBound (os : OS) (port : Nat) : Except BindError Nat :=
  if 65535 < port then Except.error BindError.overflow
  else if port = 0 then Except.ok os.ephemeralServe
  else if os.inUse port then Except.error BindError.osError
  else Except.ok port

/-- `f"Serving at: http://127.0.0.1:{port}"` as printed by `main`, where
`port` is the value returned by `find_free_port`. -/
def servingLine (port : Nat) : String :=
  "Serving at: http://127.0.0.1:" ++ toString port

/-- `f"http://127.0.0.1:{server.server_address[1]}/index.html"`: the
homepage URL built in `serve` from the actually bound port. -/
def homepageUrl (boundPort : Nat) : String :=
  "http://127.0.0.1:" ++ toString boundPort ++ "/index.html"

/-- `f"Homepage:   {url}"` as printed by `main`. -/
def homepageLine (url : String) : String :=
  "Homepage:   " ++ url

/-- `print("\nShutting down...")`: the shutdown notice of the
`KeyboardInterrupt` handler. -/
def shutdownNotice : String := "\nShutting down..."

/-- Process-level effects of `main` (and of request handling): changing
directory, binding the server socket, printing, starting and joining the
server thread, opening the browser, shutting the server down, closing its
socket, and filesystem reads and writes. -/
inductive Ev where
  | chdir (dir : String)
  | bindServer (addr : String) (port : Nat)
  | printLine (s : String)
  | threadStart
  | browserOpen (url : String)
  | threadJoin
  | shutdown
  | serverClose
  | fsRead (path : String)
  | fsWrite (path : String)
  deriving DecidableEq

/-- How a run of `main` ends: a fatal uncaught exception during startup,
a normal return with an exit code, or blocking forever in
`thread.join()` when no interrupt arrives. -/
inductive MainOut where
  | fatal (e : BindError)
  | exits (code : Int)
  | blocked
  deriving DecidableEq

/-- The effect trace and outcome of `main` with `--port argPort`, run under
environment `os`; `interrupted` tells whether a `KeyboardInterrupt` arrives
while the main thread blocks in `thread.join()`.  Mirrors `main`:
`os.chdir` to the script directory, `find_free_port`, `serve` (the server
bind), the two diagnostic prints, starting the daemon thread, opening the
browser, then either the interrupt path (notice, `httpd.shutdown()`,
`httpd.server_close()`, `return 0`) or blocking in the join. -/
def mainT (os : OS) (argPort : Int) (interrupted : Bool) :
    List Ev × MainOut :=
  match find_free_port os argPort with
  | Except.error e => ([Ev.chdir os.scriptDir], MainOut.fatal e)
  | Except.ok port =>
    match serveBound os port with
    | Except.error e => ([Ev.chdir os.scriptDir], MainOut.fatal e)
    | Except.ok bound =>
      let url := homepageUrl bound
      let pre : List Ev :=
        [Ev.chdir os.scriptDir, Ev.bindServer "127.0.0.1" port,
         Ev.printLine (servingLine port), Ev.printLine (homepageLine url),
         Ev.threadStart, Ev.browserOpen url]
      if interrupted then
        (pre ++ [Ev.printLine shutdownNotice, Ev.shutdown, Ev.serverClose],
          MainOut.exits 0)
      else
        (pre ++ [Ev.threadJoin], MainOut.blocked)

/-- Whether the server socket is bound after the given events: set by
`bindServer`, released by `serverClose`. -/
def boundAfter (evs : List Ev) : Bool :=
  evs.foldl
    (fun b e =>
      match e with
      | Ev.bindServer _ _ => true
      | Ev.serverClose => false
      | _ => b)
    false

/-- A socket operation binds only to loopback: any `bindAttempt` names
the address `"127.0.0.1"`. -/
def opLoopback : SockOp → Bool
  | SockOp.bindAttempt a _ _ => a == "127.0.0.1"
  | _ => true

/-- A `main` event binds only to loopback: any `bindServer` names the
address `"127.0.0.1"`. -/
def evLoopback : Ev → Bool
  | Ev.bindServer a _ => a == "127.0.0.1"
  | _ => true

/-- Whether a `main`-level event is a filesystem write. -/
def evIsWrite : Ev → Bool
  | Ev.fsWrite _ => true
  | _ => false

/-- Occurrence count of one socket operation in a trace. -/
def countOp (target : SockOp) : List SockOp → Nat
  | [] => 0
  | e :: t => (if e = target then 1 else 0) + countOp target t

/-- The static files the server can see: association list from request
path to file content. -/
structure FS where
  files : List (String × String)

/-- An HTTP response of the server: status, headers in the order they are
sent, body, and the filesystem effects of producing it. -/
structure Response where
  status : Nat
  headers : List (String × String)
  body : String
  effects : List Ev

/-- `NoCacheRequestHandler.end_headers`: the headers buffered so far are
followed by the two no-cache headers appended by the override before the
buffer is flushed. -/
def end_headers (pending : List (String × String)) : List (String × String) :=
  pending ++
    [("Cache-Control", "no-store, no-cache, must-revalidate, max-age=0"),
     ("Pragma", "no-cache")]

/-- Handling of a GET request by `NoCacheRequestHandler` (a
`SimpleHTTPRequestHandler` serving the current directory; its semantics
for GET are modelled here): an existing file is read and served with 200,
a missing path yields a 404 error page; either way the headers pass
through `end_headers`, and the only filesystem effect is reading the
served file. -/
def handleGet (fs : FS) (path : String) : Response :=
  match fs.files.lookup path with
  | some content =>
    { status := 200
      headers := end_headers
        [("Content-Type", "text/html"),
         ("Content-Length", toString content.length)]
      body := content
      effects := [Ev.fsRead path] }
  | none =>
    { status := 404
      headers := end_headers [("Content-Type", "text/html")]
      body := "404 Not Found"
      effects := [] }

/-- An environment with every port free, used to exercise theorems on
concrete inputs. -/
def osFree : OS :=
  { inUse := fun _ => false
    ephemeralProbe := 49152
    ephemeralServe := 49153
    scriptDir := "/repo" }

/-- An environment in which every concrete port is already in use, so the
candidate scan is exhausted and the server falls back to an OS-assigned
port. -/
def osBusy : OS :=
  { inUse := fun _ => true
    ephemeralProbe := 49152
    ephemeralServe := 54321
    scriptDir := "/repo" }

/-- A one-file filesystem used to exercise theorems on concrete inputs. -/
def fsExample : FS := { files := [("index.html", "hello")] }

/-- On a valid nonzero port, a bind attempt succeeds exactly when the port
is not in use, and any failure is an `OSError`. -/
lemma tryBind_inrange (os : OS) (p : Int) (h1 : 1 ≤ p) (h2 : p ≤ 65535) :
    tryBind os p =
      if os.inUse p.toNat then Except.error BindError.osError
      else Except.ok p.toNat := by
  unfold tryBind
  rw [if_neg (by omega), if_neg (by omega)]

/-- Scanning a list of valid nonzero candidate ports returns the first
candidate not in use, or 0 when all are in use. -/
lemma scanT_map_nat (os : OS) (l : List Nat)
    (h : ∀ q ∈ l, 1 ≤ q ∧ q ≤ 65535) :
    (scanT os (l.map Int.ofNat)).2 =
      Except.ok
        (match l.find? (fun q => !os.inUse q) with
         | some q => q
         | none => 0) := by
  induction l with
  | nil => rfl
  | cons q l ih =>
    have hq := h q (List.mem_cons_self q l)
    have hb : tryBind os (Int.ofNat q) =
        if os.inUse q then Except.error BindError.osError
        else Except.ok q := by
      rw [tryBind_inrange os (Int.ofNat q) (Int.ofNat_le.mpr hq.1)
        (Int.ofNat_le.mpr hq.2)]
      simp
    cases hu : os.inUse q with
    | true =>
      simp only [List.map_cons, scanT, hb, hu, if_true, List.find?_cons,
        Bool.not_true]
      exact ih (fun r hr => h r (List.mem_cons_of_mem q hr))
    | false =>
      simp only [List.map_cons, scanT, hb, hu, List.find?_cons]
      simp [hu]

/-- Every port of the fallback range is a valid nonzero port. -/
lemma fallbackPorts_bounds : ∀ q ∈ fallbackPorts, 1 ≤ q ∧ q ≤ 65535 := by
  decide

/-- Scanning candidates that are all valid ports never raises: every bind
failure on a valid port is an `OSError`, which the loop catches. -/
lemma scanT_ok_of_bounds (os : OS) (l : List Int)
    (h : ∀ q ∈ l, 0 ≤ q ∧ q ≤ 65535) :
    ∃ n, (scanT os l).2 = Except.ok n := by
  induction l with
  | nil => exact ⟨0, rfl⟩
  | cons p rest ih =>
    have hp := h p (List.mem_cons_self p rest)
    cases htb : tryBind os p with
    | ok v => exact ⟨p.toNat, by simp [scanT, htb]⟩
    | error e =>
      cases e with
      | overflow =>
        exfalso
        unfold tryBind at htb
        rw [if_neg (by omega)] at htb
        by_cases hz : p = 0
        · simp [hz] at htb
        · rw [if_neg hz] at htb
          by_cases hi : os.inUse p.toNat
          · simp [hi] at htb
          · simp [hi] at htb
      | osError =>
        obtain ⟨n, hn⟩ := ih (fun r hr => h r (List.mem_cons_of_mem p hr))
        exact ⟨n, by simp [scanT, htb, hn]⟩

/-- Every bind attempt of the candidate scan targets loopback. -/
lemma scanT_loopback (os : OS) (l : List Int) :
    ((scanT os l).1).all opLoopback = true := by
  induction l with
  | nil => rfl
  | cons p rest ih =>
    cases htb : tryBind os p with
    | ok v => simp [scanT, htb, probeEvents, opLoopback]
    | error e =>
      cases e with
      | osError => simp [scanT, htb, probeEvents, opLoopback, ih]
      | overflow => simp [scanT, htb, probeEvents, opLoopback]

/-- `countOp` distributes over list append. -/
lemma countOp_append (t : SockOp) (l1 l2 : List SockOp) :
    countOp t (l1 ++ l2) = countOp t l1 + countOp t l2 := by
  induction l1 with
  | nil => simp [countOp]
  | cons e l ih => simp [countOp, ih, Nat.add_assoc]

/-- The candidate scan opens exactly as many probe sockets as it closes. -/
lemma scanT_counts (os : OS) (l : List Int) :
    countOp SockOp.sockOpen (scanT os l).1 =
    countOp SockOp.sockClose (scanT os l).1 := by
  induction l with
  | nil => rfl
  | cons p rest ih =>
    cases htb : tryBind os p with
    | ok v => simp [scanT, htb, probeEvents, countOp]
    | error e =>
      cases e with
      | osError => simp [scanT, htb, probeEvents, countOp_append, countOp, ih]
      | overflow => simp [scanT, htb, probeEvents, countOp]

/-- C1: for every preferred port P ≠ 0 (a port being an integer in
[1, 65535]), `find_free_port` first attempts to bind a probe socket to P
on loopback (the second event of its socket trace is the bind attempt on
P, succeeding exactly when P is free); when P is free it returns P; when
the bind of P fails it returns the first port of the fixed range
8001..8010 that binds, and 0 when every port of that range is busy
(`firstFreeFallback` is exactly that first-free-or-0 port). -/
theorem find_free_port_preferred_spec (os : OS) (P : Int)
    (h1 : 1 ≤ P) (h2 : P ≤ 65535) :
    (find_free_portT os P).1.get? 1 =
      some (SockOp.bindAttempt "127.0.0.1" P (!os.inUse P.toNat)) ∧
    (os.inUse P.toNat = false → find_free_port os P = Except.ok P.toNat) ∧
    (os.inUse P.toNat = true →
      find_free_port os P = Except.ok (firstFreeFallback os)) := by
  have hP0 : ¬ P = 0 := by omega
  have hb := tryBind_inrange os P h1 h2
  cases hu : os.inUse P.toNat with
  | false =>
    have hscan : scanT os (candidates P) =
        (probeEvents P true, Except.ok P.toNat) := by
      simp [candidates, scanT, hb, hu]
    refine ⟨?_, fun _ => ?_, fun hcon => by simp [hu] at hcon⟩
    · simp only [find_free_portT, if_neg hP0, hscan, hu]
      rfl
    · simp only [find_free_port, find_free_portT, if_neg hP0, hscan]
  | true =>
    have hscan : scanT os (candidates P) =
        (probeEvents P false ++ (scanT os (fallbackPorts.map Int.ofNat)).1,
          (scanT os (fallbackPorts.map Int.ofNat)).2) := by
      simp [candidates, scanT, hb, hu]
    refine ⟨?_, fun hcon => by simp [hu] at hcon, fun _ => ?_⟩
    · simp only [find_free_portT, if_neg hP0, hscan, hu]
      rfl
    · simp only [find_free_port, find_free_portT, if_neg hP0, hscan]
      rw [scanT_map_nat os fallbackPorts fallbackPorts_bounds]
      rfl

/-- Witness for `find_free_port_preferred_spec` at the default port 8000
in an environment with every port free. -/
theorem find_free_port_preferred_spec_witness :
    (find_free_portT osFree 8000).1.get? 1 =
      some (SockOp.bindAttempt "127.0.0.1" 8000
        (!osFree.inUse (8000 : Int).toNat)) ∧
    (osFree.inUse (8000 : Int).toNat = false →
      find_free_port osFree 8000 = Except.ok (8000 : Int).toNat) ∧
    (osFree.inUse (8000 : Int).toNat = true →
      find_free_port osFree 8000 = Except.ok (firstFreeFallback osFree)) :=
  find_free_port_preferred_spec osFree 8000 (by decide) (by decide)

/-- C3 (counterexample): for an integer input outside the valid port
range, such as 65536, the first bind attempt raises `OverflowError`
(CPython rejects the port before any syscall), which `except OSError`
does not catch, so `find_free_port` raises instead of returning. -/
theorem find_free_port_overflow_raises :
    find_free_port osFree 65536 = Except.error BindError.overflow := rfl

/-- C3 (amended): for every integer input in the valid port range
[0, 65535], `find_free_port` never raises: every bind failure during
probing is an `OSError`, caught and treated as trying the next
candidate, and the function always returns a port number. -/
theorem find_free_port_total_on_ports (os : OS) (p : Int)
    (h1 : 0 ≤ p) (h2 : p ≤ 65535) :
    ∃ n, find_free_port os p = Except.ok n := by
  by_cases hz : p = 0
  · exact ⟨os.ephemeralProbe, by simp [find_free_port, find_free_portT, hz]⟩
  · have h : ∀ q ∈ candidates p, 0 ≤ q ∧ q ≤ 65535 := by
      intro q hq
      rcases List.mem_cons.mp hq with h | h
      · exact h ▸ ⟨h1, h2⟩
      · obtain ⟨r, hr, rfl⟩ := List.mem_map.mp h
        exact ⟨Int.ofNat_le.mpr (Nat.zero_le r),
          Int.ofNat_le.mpr (fallbackPorts_bounds r hr).2⟩
    obtain ⟨n, hn⟩ := scanT_ok_of_bounds os (candidates p) h
    exact ⟨n, by simp [find_free_port, find_free_portT, hz, hn]⟩

/-- Witness for `find_free_port_total_on_ports` with every port busy, the
case where the whole scan fails and the function returns 0. -/
theorem find_free_port_total_on_ports_witness :
    ∃ n, find_free_port osBusy 8000 = Except.ok n :=
  find_free_port_total_on_ports osBusy 8000 (by decide) (by decide)

/-- C6: calling `find_free_port` with input 0 binds an ephemeral loopback
probe socket and returns its OS-assigned port; since the OS assigns a
port in (0, 65535], so is the returned value. -/
theorem port_zero_gives_ephemeral (os : OS)
    (h1 : 0 < os.ephemeralProbe) (h2 : os.ephemeralProbe ≤ 65535) :
    ∃ n, find_free_port os 0 = Except.ok n ∧ 0 < n ∧ n ≤ 65535 :=
  ⟨os.ephemeralProbe, rfl, h1, h2⟩

/-- Witness for `port_zero_gives_ephemeral` in the all-ports-free
environment. -/
theorem port_zero_gives_ephemeral_witness :
    ∃ n, find_free_port osFree 0 = Except.ok n ∧ 0 < n ∧ n ≤ 65535 :=
  port_zero_gives_ephemeral osFree (by decide) (by decide)

/-- C7: every socket the program binds targets loopback: every probe bind
attempt of `find_free_port` and the server bind of `main` name the
address `"127.0.0.1"`, in every environment and for every input. -/
theorem binds_loopback_only (os : OS) (preferred argPort : Int) (i : Bool) :
    ((find_free_portT os preferred).1.all opLoopback = true) ∧
    ((mainT os argPort i).1.all evLoopback = true) := by
  constructor
  · unfold find_free_portT
    by_cases hz : preferred = 0
    · simp [hz, opLoopback]
    · simp only [if_neg hz]
      exact scanT_loopback os (candidates preferred)
  · unfold mainT
    cases hfp : find_free_port os argPort with
    | error e => simp [hfp, evLoopback]
    | ok port =>
      cases hsb : serveBound os port with
      | error e => simp [hfp, hsb, evLoopback]
      | ok bound => cases i <;> simp [hfp, hsb, evLoopback]

/-- C10: for every input, `find_free_port` closes every probe socket it
opens before returning: its socket trace holds exactly as many closes as
opens (each probe is wrapped in `contextlib.closing`), so no probe socket
is still bound when the chosen port is handed to the server. -/
theorem probe_sockets_all_closed (os : OS) (preferred : Int) :
    countOp SockOp.sockOpen (find_free_portT os preferred).1 =
    countOp SockOp.sockClose (find_free_portT os preferred).1 := by
  unfold find_free_portT
  by_cases hz : preferred = 0
  · simp [hz, countOp]
  · simp only [if_neg hz]
    exact scanT_counts os (candidates preferred)

/-- C4: every response the handler produces for a requested existing file
carries the `Cache-Control: no-store, no-cache, must-revalidate,
max-age=0` header appended by the `end_headers` override. -/
theorem response_has_cache_control (fs : FS) (path content : String)
    (h : fs.files.lookup path = some content) :
    ("Cache-Control", "no-store, no-cache, must-revalidate, max-age=0") ∈
      (handleGet fs path).headers := by
  simp [handleGet, h, end_headers]

/-- Witness for `response_has_cache_control` on a one-file filesystem. -/
theorem response_has_cache_control_witness :
    ("Cache-Control", "no-store, no-cache, must-revalidate, max-age=0") ∈
      (handleGet fsExample "index.html").headers :=
  response_has_cache_control fsExample "index.html" "hello" rfl

/-- C9: every response the handler produces — for existing files and for
404s alike — also carries the `Pragma: no-cache` header appended by the
`end_headers` override. -/
theorem response_has_pragma (fs : FS) (path : String) :
    ("Pragma", "no-cache") ∈ (handleGet fs path).headers := by
  unfold handleGet
  cases fs.files.lookup path <;> simp [end_headers]

/-- C2 (counterexample): with port 8000 and every fallback port busy,
port selection returns 0, the server binds an OS-assigned port (54321
here), yet the `Serving at:` line printed by `main` names 0 — the
selection result, not the actually bound port — while no printed line
names the bound port in a `Serving at:` line. -/
theorem serving_line_stale_port :
    find_free_port osBusy 8000 = Except.ok 0 ∧
    serveBound osBusy 0 = Except.ok 54321 ∧
    Ev.printLine (servingLine 0) ∈ (mainT osBusy 8000 false).1 ∧
    Ev.printLine (servingLine 54321) ∉ (mainT osBusy 8000 false).1 :=
  ⟨rfl, rfl, by decide, by decide⟩

/-- C2 (amended): whenever the server starts, the `Homepage:` line names
the port the server is actually bound to; the `Serving at:` line names
the port returned by port selection, which equals the actually bound
port whenever port selection returns a nonzero port (when it returns 0
the line shows 0 while the OS assigns the real port at bind time). -/
theorem printed_lines_ports (os : OS) (argPort : Int) (i : Bool)
    (port bound : Nat)
    (h1 : find_free_port os argPort = Except.ok port)
    (h2 : serveBound os port = Except.ok bound) :
    Ev.printLine (homepageLine (homepageUrl bound)) ∈
      (mainT os argPort i).1 ∧
    (port ≠ 0 → bound = port ∧
      Ev.printLine (servingLine bound) ∈ (mainT os argPort i).1) := by
  have hbp : port ≠ 0 → bound = port := by
    intro hp
    unfold serveBound at h2
    by_cases hlt : 65535 < port
    · rw [if_pos hlt] at h2
      exact absurd h2 (by simp)
    · rw [if_neg hlt, if_neg hp] at h2
      by_cases hi : os.inUse port = true
      · rw [if_pos hi] at h2
        exact absurd h2 (by simp)
      · rw [if_neg hi] at h2
        injection h2 with h
        exact h.symm
  constructor
  · cases i <;> simp [mainT, h1, h2]
  · intro hp
    refine ⟨hbp hp, ?_⟩
    rw [hbp hp]
    cases i <;> simp [mainT, h1, h2]

/-- Witness for `printed_lines_ports` at port 8000 in the all-free
environment, where selection and bind agree. -/
theorem printed_lines_ports_witness :
    Ev.printLine (homepageLine (homepageUrl 8000)) ∈
      (mainT osFree 8000 true).1 ∧
    ((8000 : Nat) ≠ 0 → (8000 : Nat) = 8000 ∧
      Ev.printLine (servingLine 8000) ∈ (mainT osFree 8000 true).1) :=
  printed_lines_ports osFree 8000 true 8000 8000 rfl rfl

/-- C5: when an interrupt arrives after a successful startup, `main`
prints the shutdown notice, performs a graceful `shutdown` immediately
followed by `server_close` (events 7 and 8 of its trace), leaves no
server socket bound afterwards, and returns exit status 0. -/
theorem interrupt_shutdown_clean (os : OS) (argPort : Int)
    (port bound : Nat)
    (h1 : find_free_port os argPort = Except.ok port)
    (h2 : serveBound os port = Except.ok bound) :
    Ev.printLine shutdownNotice ∈ (mainT os argPort true).1 ∧
    (mainT os argPort true).1.get? 7 = some Ev.shutdown ∧
    (mainT os argPort true).1.get? 8 = some Ev.serverClose ∧
    boundAfter (mainT os argPort true).1 = false ∧
    (mainT os argPort true).2 = MainOut.exits 0 := by
  have ht : mainT os argPort true =
      ([Ev.chdir os.scriptDir, Ev.bindServer "127.0.0.1" port,
        Ev.printLine (servingLine port),
        Ev.printLine (homepageLine (homepageUrl bound)),
        Ev.threadStart, Ev.browserOpen (homepageUrl bound),
        Ev.printLine shutdownNotice, Ev.shutdown, Ev.serverClose],
        MainOut.exits 0) := by
    simp [mainT, h1, h2]
  rw [ht]
  exact ⟨by simp, rfl, rfl, rfl, rfl⟩

/-- Witness for `interrupt_shutdown_clean` at port 8000 in the all-free
environment. -/
theorem interrupt_shutdown_clean_witness :
    Ev.printLine shutdownNotice ∈ (mainT osFree 8000 true).1 ∧
    (mainT osFree 8000 true).1.get? 7 = some Ev.shutdown ∧
    (mainT osFree 8000 true).1.get? 8 = some Ev.serverClose ∧
    boundAfter (mainT osFree 8000 true).1 = false ∧
    (mainT osFree 8000 true).2 = MainOut.exits 0 :=
  interrupt_shutdown_clean osFree 8000 8000 8000 rfl rfl

/-- C8: in every run, the very first effect of `main` is changing the
working directory to the directory containing the script (hence before
the server bind), and neither `main` nor request handling ever performs
a filesystem write: the handler only reads the served file. -/
theorem chdir_first_no_writes (os : OS) (argPort : Int) (i : Bool)
    (fs : FS) (path : String) :
    (mainT os argPort i).1.head? = some (Ev.chdir os.scriptDir) ∧
    (mainT os argPort i).1.all (fun e => !evIsWrite e) = true ∧
    (handleGet fs path).effects.all (fun e => !evIsWrite e) = true := by
  refine ⟨?_, ?_, ?_⟩
  · cases hfp : find_free_port os argPort with
    | error e => simp [mainT, hfp]
    | ok port =>
      cases hsb : serveBound os port with
      | error e => simp [mainT, hfp, hsb]
      | ok bound => cases i <;> simp [mainT, hfp, hsb]
  · cases hfp : find_free_port os argPort with
    | error e => simp [mainT, hfp, evIsWrite]
    | ok port =>
      cases hsb : serveBound os port with
      | error e => simp [mainT, hfp, hsb, evIsWrite]
      | ok bound => cases i <;> simp [mainT, hfp, hsb, evIsWrite]
  · unfold handleGet
    cases fs.files.lookup path <;> rfl

end StartLocal
